import Mathlib

/-!
Verification of the SmartLink QR API (src/main.go) against its specification.

The program is a single-file Go HTTP service with two handlers:

* `generateQRCode` (GET /qrcode): validates the `data` form value, opens and
  decodes a logo file, generates a QR code, resizes and overlays the logo,
  loads and parses a font, validates the `label` form value, renders a label
  band, composites, and saves/serves `temp/SmartQR.png`;
* `downloadQRCode` (GET /qrcode/download): sets download headers and serves
  the same fixed path.

The development below embeds the handler control flow, the constants, the
pixel-level compositing steps (Go `image/draw.Draw` with the `Src` operator,
`imaging.Overlay`, `imaging.Fit`) and proves the specification claims about
them.  Filesystem and library outcomes (does the logo open, does the QR
encode, does the save succeed, ...) are inputs of the embedding: an `Env` of
booleans, one per fallible call, in the order the calls appear in the source.
-/

/-! ## Constants (src/main.go lines 20-27) -/

/-- `tempDir = "temp"`. -/
def tempDir : String := "temp"

/-- `logoFile = "smartlink-logo.png"`. -/
def logoFile : String := "smartlink-logo.png"

/-- `outputFile = "SmartQR.png"`. -/
def outputFile : String := "SmartQR.png"

/-- `labelWidth = 1024`. -/
def labelWidth : Int := 1024

/-- `labelHeight = 80`. -/
def labelHeight : Int := 80

/-- `labelFontSize = 30.0` (integer-valued; only ever used as `int(labelFontSize)`
or as the point size of the font). -/
def labelFontSize : Int := 30

/-- `filepath.Join(a, b)` for the relative, separator-free components used in
this program: joins with a single slash. -/
def filepathJoin (a b : String) : String := a ++ "/" ++ b

/-- `outputPath := filepath.Join(tempDir, outputFile)` (src/main.go line 174 and
line 193). -/
def outputPath : String := filepathJoin tempDir outputFile

/-! ## The request and the environment of fallible calls -/

/-- A GET /qrcode request as the handler sees it: `r.FormValue` returns the
empty string both when the parameter is absent and when it is present but
empty, so one string per parameter suffices. -/
structure Request where
  data : String
  label : String
deriving DecidableEq, Repr

/-- One boolean per fallible library/OS call of `generateQRCode`, in source
order: `os.Open(logoFile)` (line 44), `qrcode.New` (line 52), `image.Decode`
(line 59), `os.ReadFile(fontPath)` (line 87), `truetype.Parse` (line 93),
`labelContext.DrawString` (line 144), `os.Stat(tempDir)` finding the directory
(line 165), `os.Mkdir` (line 166), `imaging.Save` (line 175). -/
structure Env where
  logoOpenOk : Bool
  qrNewOk : Bool
  logoDecodeOk : Bool
  fontReadOk : Bool
  fontParseOk : Bool
  drawOk : Bool
  tempDirExists : Bool
  mkdirOk : Bool
  saveOk : Bool
deriving DecidableEq, Repr

/-- The error messages the handler passes to `http.Error`, one constructor per
call site; `ErrMsg.text` gives the exact source string. -/
inductive ErrMsg where
  | missingData
  | failedOpenLogo
  | failedGenerateQR
  | failedDecodeLogo
  | failedLoadFont
  | failedParseFont
  | missingLabel
  | failedCreateTempDir
  | failedSaveImage
deriving DecidableEq, Repr

/-- The exact plain-text message of each `http.Error` call in src/main.go. -/
def ErrMsg.text : ErrMsg → String
  | .missingData => "Missing \'data\' parameter"
  | .failedOpenLogo => "Failed to open logo file"
  | .failedGenerateQR => "Failed to generate QR code"
  | .failedDecodeLogo => "Failed to decode logo image"
  | .failedLoadFont => "Failed to load font file"
  | .failedParseFont => "Failed to parse font"
  | .missingLabel => "Missing \'label\' parameter"
  | .failedCreateTempDir => "Failed to create temporary directory"
  | .failedSaveImage => "Failed to save QR code image"

/-- What a run of `generateQRCode` did: the HTTP status written (`http.Error`
with 400/500, or 200 via `http.ServeFile`), the error message if any, the path
handed to `http.ServeFile` if reached, whether `imaging.Save` was invoked at
all, whether it completed, and whether `DrawString` succeeded (the label text
was rendered). -/
structure HandlerResult where
  status : Nat
  errMsg : Option ErrMsg
  servedFile : Option String
  saveAttempted : Bool
  fileWritten : Bool
  textDrawn : Bool
deriving DecidableEq, Repr

/-- The control flow of `generateQRCode` (src/main.go lines 37-185), branch by
branch in source order.  The check at lines 73-76 ("Failed to generate QR code
image") re-tests the `err` of `image.Decode`, already known nil at that point,
so it is dead code and contributes no branch.  The `label` check (lines
100-104) sits after the logo open/decode, the QR generation and the font
read/parse, exactly as in the source.  `DrawString` failure (lines 144-147) is
only logged.  `os.Mkdir` runs only when `os.Stat` reports the directory
missing (lines 165-171). -/
def generateQRCode (r : Request) (env : Env) : HandlerResult :=
  if r.data = "" then
    ⟨400, some .missingData, none, false, false, false⟩
  else if env.logoOpenOk = false then
    ⟨500, some .failedOpenLogo, none, false, false, false⟩
  else if env.qrNewOk = false then
    ⟨500, some .failedGenerateQR, none, false, false, false⟩
  else if env.logoDecodeOk = false then
    ⟨500, some .failedDecodeLogo, none, false, false, false⟩
  else if env.fontReadOk = false then
    ⟨500, some .failedLoadFont, none, false, false, false⟩
  else if env.fontParseOk = false then
    ⟨500, some .failedParseFont, none, false, false, false⟩
  else if r.label = "" then
    ⟨400, some .missingLabel, none, false, false, false⟩
  else if env.tempDirExists = false ∧ env.mkdirOk = false then
    ⟨500, some .failedCreateTempDir, none, false, false, env.drawOk⟩
  else if env.saveOk = false then
    ⟨500, some .failedSaveImage, none, true, false, env.drawOk⟩
  else
    ⟨200, none, some outputPath, true, true, env.drawOk⟩

/-- The control flow of `downloadQRCode` (src/main.go lines 187-195): two
headers are set, then `http.ServeFile` is called on the fixed output path.
`serveFile` stands for the `http.ServeFile` primitive (its response is
whatever it produces for the path), `fileExists` for the state of the
filesystem at that moment; the handler consults neither before serving.  The
result is (Content-Disposition header, Content-Type header, served body). -/
def downloadQRCode {α : Type} (serveFile : String → Bool → α) (fileExists : Bool) :
    String × String × α :=
  ("attachment; filename=SmartQR.png", "image/png", serveFile outputPath fileExists)

/-- An environment in which every fallible call succeeds. -/
def envAllOk : Env := ⟨true, true, true, true, true, true, true, true, true⟩

/-! ## Rectangles and images (Go `image` package)

Points are `(x, y) : Int × Int`; a rectangle holds points with
`minX ≤ x < maxX` and `minY ≤ y < maxY`, as Go `image.Rectangle` does.  An
image is a total pixel function; the bounds rectangle travels separately, as
every drawing primitive of the source clips against bounds explicitly. -/

structure Rect where
  minX : Int
  minY : Int
  maxX : Int
  maxY : Int
deriving DecidableEq, Repr

/-- Go `image.Rect(x0, y0, x1, y1)`: the coordinates are swapped if necessary
so the rectangle is well-formed. -/
def imageRect (x0 y0 x1 y1 : Int) : Rect :=
  ⟨min x0 x1, min y0 y1, max x0 x1, max y0 y1⟩

/-- Go `image.Point.In(r)`: half-open membership. -/
def Rect.memb (r : Rect) (x y : Int) : Bool :=
  decide (r.minX ≤ x ∧ x < r.maxX ∧ r.minY ≤ y ∧ y < r.maxY)

/-- Go `image.Rectangle.Intersect`, up to the normalization of empty results:
the two have the same membership, which is all the drawing code consults. -/
def Rect.inter (a b : Rect) : Rect :=
  ⟨max a.minX b.minX, max a.minY b.minY, min a.maxX b.maxX, min a.maxY b.maxY⟩

/-- Go `image.Rectangle.Empty()`. -/
def Rect.isEmpty (r : Rect) : Bool :=
  decide (r.maxX ≤ r.minX ∨ r.maxY ≤ r.minY)

/-- Go `image.Rectangle.Dx()`. -/
def Rect.dx (r : Rect) : Int := r.maxX - r.minX

/-- Go `image.Rectangle.Dy()`. -/
def Rect.dy (r : Rect) : Int := r.maxY - r.minY

/-- An 8-bit RGBA pixel (Go `color.RGBA` / the NRGBA pixels of the imaging
library); channels as naturals, 0..255. -/
structure Px where
  r : Nat
  g : Nat
  b : Nat
  a : Nat
deriving DecidableEq, Repr

abbrev Image (α : Type) := Int → Int → α

/-- The zero value a fresh Go `image.NewRGBA` holds at every pixel. -/
def zeroPx : Px := ⟨0, 0, 0, 0⟩

/-- `backgroundColor := color.RGBA{R: 1, G: 124, B: 254, A: 255}`
(src/main.go line 107). -/
def backgroundColor : Px := ⟨1, 124, 254, 255⟩

/-- Go `draw.Draw(dst, r, &image.Uniform{c}, image.ZP, draw.Src)`: the
rectangle is clipped against the destination bounds (a uniform source is
infinite, so no further clip applies); inside, every pixel becomes `c`. -/
def drawUniform {α : Type} (dstBounds : Rect) (dst : Image α) (r : Rect) (c : α) :
    Image α :=
  fun x y => if (r.inter dstBounds).memb x y then c else dst x y

/-- Go `draw.Draw(dst, r, src, sp, draw.Src)` with an image source: the
rectangle is clipped against the destination bounds and against the source
bounds translated so that destination point `p` reads source point
`sp + (p - r.Min)`. -/
def drawSrc {α : Type} (dstBounds : Rect) (dst : Image α) (r : Rect)
    (srcBounds : Rect) (src : Image α) (sp : Int × Int) : Image α :=
  fun x y =>
    if (r.inter dstBounds).memb x y
        ∧ srcBounds.memb (sp.1 + (x - r.minX)) (sp.2 + (y - r.minY)) = true then
      src (sp.1 + (x - r.minX)) (sp.2 + (y - r.minY))
    else dst x y

/-- `freetype` glyph drawing (`labelContext.DrawString`), abstractly: the
rasterizer yields a partial pixel map `txt` (the blended values of the glyph
coverage over the current destination); pixels are updated only inside the
clip rectangle set by `labelContext.SetClip(labelImg.Bounds())` and only where
the map is defined.  A failed `DrawString` that drew nothing is the map that
is `none` everywhere. -/
def drawText (clip : Rect) (txt : Int → Int → Option Px) (img : Image Px) :
    Image Px :=
  fun x y => if clip.memb x y then (txt x y).getD (img x y) else img x y

/-- The paste rectangle of `imaging.Overlay(background, img, pos, opacity)`:
`image.Rectangle{Min: pos, Max: pos.Add(img.Bounds().Size())}`. -/
def pasteRect (srcBounds : Rect) (pos : Int × Int) : Rect :=
  ⟨pos.1, pos.2, pos.1 + srcBounds.dx, pos.2 + srcBounds.dy⟩

/-- One pixel of `imaging.Overlay` source-over blending at clamped opacity
`op`.  The library computes per-channel float blends; at `op = 1` and a fully
opaque source pixel the blend is exactly the source pixel, which is the only
case the claims evaluate; other cases stay abstract in `blend`. -/
def overPx (blend : ℚ → Px → Px → Px) (op : ℚ) (s d : Px) : Px :=
  if op = 1 ∧ s.a = 255 then s else blend op s d

/-- `imaging.Overlay(background, img, pos, opacity)`: the opacity is clamped
to `[0, 1]`; the background is cloned (zero-based, which our backgrounds
already are); inside `pasteRect ∩ background bounds` each pixel is the
source-over blend of the source pixel (read at the source's own bounds
origin) over the background pixel; outside, the background pixel. -/
def overlayImg (blend : ℚ → Px → Px → Px) (opacity : ℚ) (bgBounds : Rect)
    (bg : Image Px) (srcBounds : Rect) (src : Image Px) (pos : Int × Int) :
    Image Px :=
  fun x y =>
    if ((pasteRect srcBounds pos).inter bgBounds).memb x y then
      overPx blend (min (max opacity 0) 1)
        (src (srcBounds.minX + (x - pos.1)) (srcBounds.minY + (y - pos.2)))
        (bg x y)
    else bg x y

/-! ## The pipeline's concrete rectangles and label canvas -/

/-- `qr.Image(1024)` (src/main.go line 72) yields a zero-based 1024×1024
bitmap (the requested size exceeds every QR matrix size, so the library
scales up to exactly 1024), and `imaging.Overlay` keeps those bounds. -/
def qrImgBounds : Rect := imageRect 0 0 1024 1024

/-- `logoWidth := 200` (src/main.go line 65). -/
def logoWidth : Nat := 200

/-- `logoHeight := 200` (src/main.go line 66). -/
def logoHeight : Nat := 200

/-- `logoX := (qrImg.Bounds().Max.X - resizedLogo.Bounds().Max.X) / 2` and
likewise for Y (src/main.go lines 78-80); Go `/` on int truncates toward
zero, `Int.tdiv`. -/
def logoPosOf (qrB lgB : Rect) : Int × Int :=
  ((qrB.maxX - lgB.maxX).tdiv 2, (qrB.maxY - lgB.maxY).tdiv 2)

/-- `qrImg = imaging.Overlay(qrImg, resizedLogo, logoPos, 1.0)`
(src/main.go line 83). -/
def qrImgWithLogo (blend : ℚ → Px → Px → Px) (lgB : Rect) (lgPx : Image Px)
    (qrPx : Image Px) : Image Px :=
  overlayImg blend 1 qrImgBounds qrPx lgB lgPx (logoPosOf qrImgBounds lgB)

/-- `labelImg := image.NewRGBA(image.Rect(0, 0, labelWidth, labelHeight))`
(src/main.go line 110). -/
def labelBounds : Rect := imageRect 0 0 labelWidth labelHeight

/-- `condition := len(labelText) * 2` (src/main.go line 121); Go `len` counts
bytes. -/
def condition (labelText : String) : Int := (labelText.utf8ByteSize : Int) * 2

/-- `labelX := ((labelWidth / 2) - (len(labelText) * 7)) +
(len(labelText)-condition)*3` (src/main.go line 123). -/
def labelX (labelText : String) : Int :=
  ((labelWidth.tdiv 2) - ((labelText.utf8ByteSize : Int) * 7)) +
    ((labelText.utf8ByteSize : Int) - condition labelText) * 3

/-- `labelY := labelHeight - int(labelFontSize)` (src/main.go line 124). -/
def labelY : Int := labelHeight - labelFontSize

/-- `fillWidth := labelWidth` (src/main.go line 127). -/
def fillWidth : Int := labelWidth

/-- `labelAndSpacingHeight := labelHeight` (src/main.go line 130). -/
def labelAndSpacingHeight : Int := labelHeight

/-- `fillX := (labelWidth - fillWidth) / 2` (src/main.go line 133). -/
def fillX : Int := (labelWidth - fillWidth).tdiv 2

/-- `fillY := qrImg.Bounds().Max.Y - labelAndSpacingHeight - labelHeight`
(src/main.go line 136). -/
def fillY (qrB : Rect) : Int := qrB.maxY - labelAndSpacingHeight - labelHeight

/-- `fillRect := image.Rect(fillX, fillY, fillX+fillWidth, qrImg.Bounds().Max.Y)`
(src/main.go line 139). -/
def fillRect (qrB : Rect) : Rect :=
  imageRect fillX (fillY qrB) (fillX + fillWidth) qrB.maxY

/-- The fresh label canvas before any draw. -/
def labelImgStart : Image Px := fun _ _ => zeroPx

/-- After `draw.Draw(labelImg, labelImg.Bounds(), &image.Uniform{backgroundColor},
image.ZP, draw.Src)` (src/main.go line 111). -/
def labelImgAfterBg : Image Px :=
  drawUniform labelBounds labelImgStart labelBounds backgroundColor

/-- After `draw.Draw(labelImg, fillRect, &image.Uniform{backgroundColor},
image.ZP, draw.Src)` (src/main.go line 140). -/
def labelImgAfterFill (qrB : Rect) : Image Px :=
  drawUniform labelBounds (labelImgAfterBg) (fillRect qrB) backgroundColor

/-- The label canvas after `labelContext.DrawString(labelText, pt)`
(src/main.go line 144), with the glyph raster abstract in `txt`. -/
def labelImgFinal (qrB : Rect) (txt : Int → Int → Option Px) : Image Px :=
  drawText labelBounds txt (labelImgAfterFill qrB)

/-- `newHeight := qrImg.Bounds().Dy() + labelAndSpacingHeight`
(src/main.go line 150). -/
def newHeight (qrB : Rect) : Int := qrB.dy + labelAndSpacingHeight

/-- `newBounds := image.Rect(qrImg.Bounds().Min.X, qrImg.Bounds().Min.Y,
qrImg.Bounds().Max.X, newHeight)` (src/main.go line 153). -/
def newBounds (qrB : Rect) : Rect :=
  imageRect qrB.minX qrB.minY qrB.maxX (newHeight qrB)

/-- `newQrImg := image.NewRGBA(newBounds)` then `draw.Draw(newQrImg,
qrImg.Bounds(), qrImg, image.Point{}, draw.Src)` (src/main.go lines 156-159). -/
def newQrImg (qrB : Rect) (qrPx : Image Px) : Image Px :=
  drawSrc (newBounds qrB) (fun _ _ => zeroPx) qrB qrB qrPx (0, 0)

/-- `qrWithLogoAndLabel := imaging.Overlay(newQrImg, labelImg,
image.Pt(0, qrImg.Bounds().Dy()), 1.0)` (src/main.go line 162); `lbl` is the
label canvas. -/
def qrWithLogoAndLabel (blend : ℚ → Px → Px → Px) (qrB : Rect)
    (qrPx : Image Px) (lbl : Image Px) : Image Px :=
  overlayImg blend 1 (newBounds qrB) (newQrImg qrB qrPx) labelBounds lbl
    (0, qrB.dy)

/-! ## The dimensions computed by imaging.Fit and imaging.Resize -/

/-- The dimension handling of `imaging.Resize(img, w, h, filter)`: a zero
width or height is recomputed from the other so as to preserve the aspect
ratio, `int(math.Max(1.0, math.Floor(tmp+0.5)))` — round-half-up with a
minimum of one pixel; `floor(a/b + 1/2) = (2*a + b) / (2*b)` in exact
arithmetic, the float64 quotient modelled as an exact rational. -/
def resizeDims (srcW srcH w h : Nat) : Nat × Nat :=
  if w = 0 ∧ h = 0 then (0, 0)
  else if w = 0 then (max 1 ((2 * h * srcW + srcH) / (2 * srcH)), h)
  else if h = 0 then (w, max 1 ((2 * w * srcH + srcW) / (2 * srcW)))
  else (w, h)

/-- The dimensions produced by `imaging.Fit(img, maxW, maxH, filter)`
(src/main.go line 69 calls it with `maxW = maxH = 200`): degenerate inputs
give the empty image; an image already inside the box is cloned unchanged;
otherwise the longer side (relative to the box's aspect ratio) is set to the
box bound and the other side scaled by the source aspect ratio, truncating
(`int(...)` of a positive float).  The float64 aspect-ratio comparison
`srcW/srcH > maxW/maxH` is modelled as the exact rational comparison
`srcW*maxH > maxW*srcH`, and the float quotients as exact rationals; the
resulting width/height then pass through `imaging.Resize`'s zero-dimension
fallback. -/
def fitDims (srcW srcH maxW maxH : Nat) : Nat × Nat :=
  if maxW = 0 ∨ maxH = 0 then (0, 0)
  else if srcW = 0 ∨ srcH = 0 then (0, 0)
  else if srcW ≤ maxW ∧ srcH ≤ maxH then (srcW, srcH)
  else if srcW * maxH > maxW * srcH then
    resizeDims srcW srcH maxW ((maxW * srcH) / srcW)
  else
    resizeDims srcW srcH ((maxH * srcW) / srcH) maxH

lemma Rect.memb_iff (r : Rect) (x y : Int) :
    r.memb x y = true ↔ (r.minX ≤ x ∧ x < r.maxX ∧ r.minY ≤ y ∧ y < r.maxY) := by
  simp [Rect.memb]

/-! ## Claim C1: parameter validation versus asset loading -/

/-- C1 counterexample: it is not the case that a request with an empty `label`
receives HTTP 400 regardless of whether the logo file exists: with
`data = "x"`, `label = ""` and a logo that fails to open, the handler answers
500 ("Failed to open logo file"), not 400. -/
theorem C1_counterexample :
    ¬ (∀ env : Env, (generateQRCode ⟨"x", ""⟩ env).status = 400) :=
  fun h =>
    absurd (h ⟨false, true, true, true, true, true, true, true, true⟩) (by decide)

/-- C1 amended: `data` is validated first, before any filesystem access, but
`label` is validated only after the logo has been opened and decoded, the QR
code generated and the font read and parsed.  A request with empty `label` and
non-empty `data` receives 400 exactly when those five earlier steps succeed;
when the logo fails to open it receives 500 instead. -/
theorem C1_label_checked_after_assets (r : Request) (env : Env)
    (hd : r.data ≠ "") (hl : r.label = "") :
    (env.logoOpenOk = true → env.qrNewOk = true → env.logoDecodeOk = true →
      env.fontReadOk = true → env.fontParseOk = true →
      (generateQRCode r env).status = 400 ∧
      (generateQRCode r env).errMsg = some .missingLabel) ∧
    (env.logoOpenOk = false →
      (generateQRCode r env).status = 500 ∧
      (generateQRCode r env).errMsg = some .failedOpenLogo) := by
  constructor
  · intro h1 h2 h3 h4 h5
    simp [generateQRCode, hd, hl, h1, h2, h3, h4, h5]
  · intro h1
    simp [generateQRCode, hd, h1]

/-- C1 witness: at `data = "x"`, `label = ""` with every call succeeding, the
handler answers 400 with the missing-label message; with the logo failing to
open it answers 500. -/
theorem C1_label_checked_after_assets_witness :
    ((generateQRCode ⟨"x", ""⟩ envAllOk).status = 400 ∧
      (generateQRCode ⟨"x", ""⟩ envAllOk).errMsg = some .missingLabel) ∧
    ((generateQRCode ⟨"x", ""⟩ ⟨false, true, true, true, true, true, true, true, true⟩).status = 500 ∧
      (generateQRCode ⟨"x", ""⟩ ⟨false, true, true, true, true, true, true, true, true⟩).errMsg =
        some .failedOpenLogo) :=
  ⟨(C1_label_checked_after_assets ⟨"x", ""⟩ envAllOk (by decide) rfl).1 rfl rfl rfl rfl rfl,
   (C1_label_checked_after_assets ⟨"x", ""⟩ ⟨false, true, true, true, true, true, true, true, true⟩
      (by decide) rfl).2 rfl⟩

/-! ## Claim C2: 400 on missing `data`, 400 on missing `label` -/

/-- C2 counterexample: a request with `data` present and `label` absent does
not always receive 400: with `data = "hello"`, `label = ""` and a font file
that fails to read, the handler answers 500 ("Failed to load font file"). -/
theorem C2_counterexample :
    ¬ (∀ (r : Request) (env : Env), r.data ≠ "" → r.label = "" →
        (generateQRCode r env).status = 400) :=
  fun h =>
    absurd
      (h ⟨"hello", ""⟩ ⟨true, true, true, false, true, true, true, true, true⟩ (by decide) rfl)
      (by decide)

/-- C2 amended: a request with absent/empty `data` always receives 400 with the
missing-data message; a request with `data` present and absent/empty `label`
receives 400 with the missing-label message provided the logo opens and
decodes, the QR generation succeeds and the font reads and parses — otherwise
the earlier failure answers 500 first. -/
theorem C2_param_validation :
    (∀ (r : Request) (env : Env), r.data = "" →
      (generateQRCode r env).status = 400 ∧
      (generateQRCode r env).errMsg = some .missingData) ∧
    (∀ (r : Request) (env : Env), r.data ≠ "" → r.label = "" →
      env.logoOpenOk = true → env.qrNewOk = true → env.logoDecodeOk = true →
      env.fontReadOk = true → env.fontParseOk = true →
      (generateQRCode r env).status = 400 ∧
      (generateQRCode r env).errMsg = some .missingLabel) := by
  constructor
  · intro r env hd
    simp [generateQRCode, hd]
  · intro r env hd hl h1 h2 h3 h4 h5
    simp [generateQRCode, hd, hl, h1, h2, h3, h4, h5]

/-! ## Claim C6: the five server-error classes -/

/-- C6: with valid parameters, each failure class — logo open, QR generation,
logo decode, font read, font parse, directory creation, output save — answers
500 and returns immediately (no file served, nothing written after the point
of failure), and the seven messages are pairwise distinct plain-text strings.
Each class is stated under success of the stages the source runs before it. -/
theorem C6_error_classes :
    (∀ (r : Request) (env : Env), r.data ≠ "" → env.logoOpenOk = false →
      generateQRCode r env = ⟨500, some .failedOpenLogo, none, false, false, false⟩) ∧
    (∀ (r : Request) (env : Env), r.data ≠ "" → env.logoOpenOk = true →
      env.qrNewOk = false →
      generateQRCode r env = ⟨500, some .failedGenerateQR, none, false, false, false⟩) ∧
    (∀ (r : Request) (env : Env), r.data ≠ "" → env.logoOpenOk = true →
      env.qrNewOk = true → env.logoDecodeOk = false →
      generateQRCode r env = ⟨500, some .failedDecodeLogo, none, false, false, false⟩) ∧
    (∀ (r : Request) (env : Env), r.data ≠ "" → env.logoOpenOk = true →
      env.qrNewOk = true → env.logoDecodeOk = true → env.fontReadOk = false →
      generateQRCode r env = ⟨500, some .failedLoadFont, none, false, false, false⟩) ∧
    (∀ (r : Request) (env : Env), r.data ≠ "" → env.logoOpenOk = true →
      env.qrNewOk = true → env.logoDecodeOk = true → env.fontReadOk = true →
      env.fontParseOk = false →
      generateQRCode r env = ⟨500, some .failedParseFont, none, false, false, false⟩) ∧
    (∀ (r : Request) (env : Env), r.data ≠ "" → r.label ≠ "" →
      env.logoOpenOk = true → env.qrNewOk = true → env.logoDecodeOk = true →
      env.fontReadOk = true → env.fontParseOk = true →
      env.tempDirExists = false → env.mkdirOk = false →
      generateQRCode r env = ⟨500, some .failedCreateTempDir, none, false, false, env.drawOk⟩) ∧
    (∀ (r : Request) (env : Env), r.data ≠ "" → r.label ≠ "" →
      env.logoOpenOk = true → env.qrNewOk = true → env.logoDecodeOk = true →
      env.fontReadOk = true → env.fontParseOk = true →
      (env.tempDirExists = true ∨ env.mkdirOk = true) → env.saveOk = false →
      generateQRCode r env = ⟨500, some .failedSaveImage, none, true, false, env.drawOk⟩) ∧
    List.Nodup [ErrMsg.text .failedOpenLogo, ErrMsg.text .failedGenerateQR,
      ErrMsg.text .failedDecodeLogo, ErrMsg.text .failedLoadFont,
      ErrMsg.text .failedParseFont, ErrMsg.text .failedCreateTempDir,
      ErrMsg.text .failedSaveImage] := by
  refine ⟨?_, ?_, ?_, ?_, ?_, ?_, ?_, ?_⟩
  · intro r env hd h1
    simp [generateQRCode, hd, h1]
  · intro r env hd h1 h2
    simp [generateQRCode, hd, h1, h2]
  · intro r env hd h1 h2 h3
    simp [generateQRCode, hd, h1, h2, h3]
  · intro r env hd h1 h2 h3 h4
    simp [generateQRCode, hd, h1, h2, h3, h4]
  · intro r env hd h1 h2 h3 h4 h5
    simp [generateQRCode, hd, h1, h2, h3, h4, h5]
  · intro r env hd hl h1 h2 h3 h4 h5 h6 h7
    simp [generateQRCode, hd, hl, h1, h2, h3, h4, h5, h6, h7]
  · intro r env hd hl h1 h2 h3 h4 h5 h6 h7
    rcases h6 with h6 | h6 <;>
      simp [generateQRCode, hd, hl, h1, h2, h3, h4, h5, h6, h7]
  · decide

/-! ## Claim C8: the download handler -/

/-- C8: for every GET /qrcode/download request, whatever the filesystem state,
the handler answers with Content-Disposition `attachment; filename=SmartQR.png`
and Content-Type `image/png`, and its body is exactly what the static-file
primitive returns for the fixed path `temp/SmartQR.png` — no check that a file
was generated in this process. -/
theorem C8_download_fixed_path :
    ∀ (α : Type) (serveFile : String → Bool → α) (fileExists : Bool),
      downloadQRCode serveFile fileExists =
        ("attachment; filename=SmartQR.png", "image/png",
          serveFile "temp/SmartQR.png" fileExists) :=
  fun _ _ _ => rfl

/-! ## Claim C9: when the output file is written -/

/-- C9 counterexample: not every request ending in an error response returns
before the write to `temp/SmartQR.png`: with valid parameters and every call
succeeding except `imaging.Save`, the handler answers 500 after the write has
already been attempted. -/
theorem C9_counterexample :
    ¬ (∀ (r : Request) (env : Env), (generateQRCode r env).status ≠ 200 →
        (generateQRCode r env).saveAttempted = false) :=
  fun h =>
    absurd
      (h ⟨"a", "b"⟩ ⟨true, true, true, true, true, true, true, true, false⟩ (by decide))
      (by decide)

/-- C9 amended: every request ending in 400 or 500 — except the save-failure
500 itself — returns before `imaging.Save` is invoked, leaving the output file
untouched; the save-failure 500 is sent only after the write has been
attempted (which may have modified the file); and the write completes exactly
on the paths that end in a 200 response. -/
theorem C9_write_only_on_success :
    (∀ (r : Request) (env : Env), (generateQRCode r env).status ≠ 200 →
      (generateQRCode r env).errMsg ≠ some .failedSaveImage →
      (generateQRCode r env).saveAttempted = false ∧
      (generateQRCode r env).fileWritten = false) ∧
    (∀ (r : Request) (env : Env), (generateQRCode r env).fileWritten = true →
      (generateQRCode r env).status = 200) ∧
    (∀ (r : Request) (env : Env), (generateQRCode r env).status = 200 →
      (generateQRCode r env).fileWritten = true) := by
  refine ⟨?_, ?_, ?_⟩
  · intro r env
    unfold generateQRCode
    repeat' split
    all_goals simp
  · intro r env
    unfold generateQRCode
    repeat' split
    all_goals simp
  · intro r env
    unfold generateQRCode
    repeat' split
    all_goals simp

/-! ## Concrete values of the pipeline's rectangles -/

lemma qrImgBounds_eq : qrImgBounds = ⟨0, 0, 1024, 1024⟩ := by decide

lemma labelBounds_eq : labelBounds = ⟨0, 0, 1024, 80⟩ := by decide

lemma newBounds_qr_eq : newBounds qrImgBounds = ⟨0, 0, 1024, 1104⟩ := by decide

lemma fillRect_qr_eq : fillRect qrImgBounds = ⟨0, 864, 1024, 1024⟩ := by decide

lemma labelPaste_eq :
    (pasteRect labelBounds (0, qrImgBounds.dy)).inter (newBounds qrImgBounds) =
      ⟨0, 1024, 1024, 1104⟩ := by decide

lemma interQrNew_eq : qrImgBounds.inter (newBounds qrImgBounds) = ⟨0, 0, 1024, 1024⟩ := by
  decide

/-- The background-fill rectangle misses the label canvas entirely: its
clipped draw region is empty. -/
lemma fill_cond_false (x y : Int) :
    ((fillRect qrImgBounds).inter labelBounds).memb x y = false := by
  rw [fillRect_qr_eq, labelBounds_eq]
  simp only [Rect.inter, Rect.memb]
  rw [decide_eq_false_iff_not]
  intro h
  omega

/-- Drawing the background fill (src/main.go line 140) changes no pixel of the
label canvas. -/
lemma labelImgAfterFill_qr : labelImgAfterFill qrImgBounds = labelImgAfterBg := by
  funext x y
  unfold labelImgAfterFill drawUniform
  rw [fill_cond_false]
  simp

/-- Inside the QR bounds, the enlarged canvas holds the QR pixels. -/
lemma newQrImg_top (qrPx : Image Px) (x y : Int)
    (h : qrImgBounds.memb x y = true) : newQrImg qrImgBounds qrPx x y = qrPx x y := by
  rw [qrImgBounds_eq] at h
  simp only [Rect.memb, decide_eq_true_eq] at h
  unfold newQrImg drawSrc
  rw [interQrNew_eq]
  rw [if_pos]
  · rw [qrImgBounds_eq]
    norm_num
  · constructor
    · simp only [Rect.memb, decide_eq_true_eq]
      omega
    · rw [qrImgBounds_eq]
      simp only [Rect.memb, decide_eq_true_eq]
      norm_num
      omega

/-- Below the QR bounds, the enlarged canvas holds the zero pixels of the
fresh `image.NewRGBA`. -/
lemma newQrImg_bottom (qrPx : Image Px) (x y : Int) (hy : 1024 ≤ y) :
    newQrImg qrImgBounds qrPx x y = zeroPx := by
  unfold newQrImg drawSrc
  rw [interQrNew_eq]
  rw [if_neg]
  intro h
  have h1 := h.1
  simp only [Rect.memb, decide_eq_true_eq] at h1
  omega

/-! ## Claim C3: composite dimensions and regions -/

/-- C3: the composited image is 1024 wide and 1024 + 80 = 1104 tall; inside
the original QR bounds every pixel is the (logo-bearing) QR pixel, and in the
bottom 80 rows every pixel is the label-canvas pixel of the row 1024 lower,
overlaid (source-over at full opacity) onto the zero pixels of the enlarged
canvas. -/
theorem C3_composite_size_and_regions :
    (newBounds qrImgBounds).dx = 1024 ∧
    (newBounds qrImgBounds).dy = 1024 + 80 ∧
    (∀ (blend : ℚ → Px → Px → Px) (qrPx lbl : Image Px) (x y : Int),
      qrImgBounds.memb x y = true →
      qrWithLogoAndLabel blend qrImgBounds qrPx lbl x y = qrPx x y) ∧
    (∀ (blend : ℚ → Px → Px → Px) (qrPx lbl : Image Px) (x y : Int),
      (imageRect 0 1024 1024 1104).memb x y = true →
      qrWithLogoAndLabel blend qrImgBounds qrPx lbl x y =
        overPx blend 1 (lbl x (y - 1024)) zeroPx) := by
  refine ⟨by decide, by decide, ?_, ?_⟩
  · intro blend qrPx lbl x y hxy
    have hb : qrImgBounds.memb x y = true := hxy
    rw [qrImgBounds_eq] at hxy
    simp only [Rect.memb, decide_eq_true_eq] at hxy
    unfold qrWithLogoAndLabel overlayImg
    rw [labelPaste_eq]
    rw [if_neg]
    · exact newQrImg_top qrPx x y hb
    · simp only [Rect.memb, decide_eq_true_eq]
      intro h
      omega
  · intro blend qrPx lbl x y hxy
    have hrect : imageRect 0 1024 1024 1104 = (⟨0, 1024, 1024, 1104⟩ : Rect) := by decide
    rw [hrect] at hxy
    simp only [Rect.memb, decide_eq_true_eq] at hxy
    unfold qrWithLogoAndLabel overlayImg
    rw [labelPaste_eq]
    rw [if_pos]
    · rw [newQrImg_bottom qrPx x y (by omega)]
      rw [labelBounds_eq, qrImgBounds_eq]
      norm_num [Rect.dy]
    · simp only [Rect.memb, decide_eq_true_eq]
      omega

/-! ## Claim C4: logo centering and overlay opacity -/

/-- C4: for a QR bitmap and a resized logo with zero-based bounds (which
`qr.Image` and `imaging.Fit` produce), the overlay position computed from
`Bounds().Max` equals `((W - w) / 2, (H - h) / 2)` with truncating integer
division; and at full opacity the source-over blend of an opaque logo pixel
is exactly that pixel, i.e. the overlay replaces the QR pixels under the
logo. -/
theorem C4_logo_centering (W H w h : Int)
    (hW : 0 ≤ W) (hH : 0 ≤ H) (hw : 0 ≤ w) (hh : 0 ≤ h) :
    logoPosOf (imageRect 0 0 W H) (imageRect 0 0 w h) =
      ((W - w).tdiv 2, (H - h).tdiv 2) ∧
    (∀ (blend : ℚ → Px → Px → Px) (s d : Px), s.a = 255 → overPx blend 1 s d = s) ∧
    (∀ (blend : ℚ → Px → Px → Px) (lgB : Rect) (lgPx qrPx : Image Px),
      qrImgWithLogo blend lgB lgPx qrPx =
        overlayImg blend 1 qrImgBounds qrPx lgB lgPx (logoPosOf qrImgBounds lgB)) := by
  refine ⟨?_, ?_, fun _ _ _ _ => rfl⟩
  · simp [logoPosOf, imageRect, max_eq_right hW, max_eq_right hH,
      max_eq_right hw, max_eq_right hh]
  · intro blend s d hs
    simp [overPx, hs]

/-- C4 witness: at the pipeline's 1024×1024 QR bitmap and a 200×133 resized
logo, the computed position is `((1024-200)/2, (1024-133)/2) = (412, 445)`. -/
theorem C4_logo_centering_witness :
    logoPosOf (imageRect 0 0 1024 1024) (imageRect 0 0 200 133) =
      ((1024 - 200 : Int).tdiv 2, (1024 - 133 : Int).tdiv 2) :=
  (C4_logo_centering 1024 1024 200 133 (by decide) (by decide) (by decide)
    (by decide)).1

/-! ## Claim C10: the background-fill rectangle is a no-op -/

/-- C10: `fillY = 1024 - 80 - 80 = 864`, so the fill rectangle spans rows
864..1024, wholly outside the 0..80 label canvas; its clipped draw region is
empty, and the label canvas after the three draws equals the canvas with the
fill draw omitted — its pixels are fully determined by the uniform background
fill plus the drawn text, for every glyph raster. -/
theorem C10_fill_rect_is_noop :
    fillY qrImgBounds = 864 ∧
    ((fillRect qrImgBounds).inter labelBounds).isEmpty = true ∧
    (∀ txt : Int → Int → Option Px,
      labelImgFinal qrImgBounds txt = drawText labelBounds txt labelImgAfterBg) := by
  refine ⟨by decide, by decide, ?_⟩
  intro txt
  unfold labelImgFinal
  rw [labelImgAfterFill_qr]

lemma bool_ne_false {b : Bool} (h : ¬ b = false) : b = true := by
  cases b
  · exact absurd rfl h
  · rfl

/-! ## Claim C7: DrawString failure is the only non-fatal failure -/

/-- C7: a failed `DrawString` is logged and the request still composites,
saves and serves (status 200, file written, no text drawn); every other
failure class yields an error response (a 200 implies every other fallible
stage succeeded); and with nothing drawn the label band is the uniform
background color everywhere. -/
theorem C7_drawstring_only_nonfatal :
    (∀ (r : Request) (env : Env), r.data ≠ "" → r.label ≠ "" →
      env.logoOpenOk = true → env.qrNewOk = true → env.logoDecodeOk = true →
      env.fontReadOk = true → env.fontParseOk = true →
      (env.tempDirExists = true ∨ env.mkdirOk = true) → env.saveOk = true →
      env.drawOk = false →
      generateQRCode r env = ⟨200, none, some outputPath, true, true, false⟩) ∧
    (∀ (r : Request) (env : Env), (generateQRCode r env).status = 200 →
      env.logoOpenOk = true ∧ env.qrNewOk = true ∧ env.logoDecodeOk = true ∧
      env.fontReadOk = true ∧ env.fontParseOk = true ∧
      (env.tempDirExists = true ∨ env.mkdirOk = true) ∧ env.saveOk = true) ∧
    (∀ x y : Int, labelBounds.memb x y = true →
      labelImgFinal qrImgBounds (fun _ _ => none) x y = backgroundColor) := by
  refine ⟨?_, ?_, ?_⟩
  · intro r env hd hl h1 h2 h3 h4 h5 h6 h7 h8
    rcases h6 with h6 | h6 <;>
      simp [generateQRCode, hd, hl, h1, h2, h3, h4, h5, h6, h7, h8]
  · intro r env h
    unfold generateQRCode at h
    repeat' split at h
    any_goals (exfalso; simp_all; done)
    rename_i hd h1 h2 h3 h4 h5 hl h6 h7
    refine ⟨bool_ne_false h1, bool_ne_false h2, bool_ne_false h3, bool_ne_false h4,
      bool_ne_false h5, ?_, bool_ne_false h7⟩
    rcases Bool.eq_false_or_eq_true env.tempDirExists with htd | htd
    · exact Or.inl htd
    · rcases Bool.eq_false_or_eq_true env.mkdirOk with hmk | hmk
      · exact Or.inr hmk
      · exact absurd ⟨htd, hmk⟩ h6
  · intro x y hxy
    unfold labelImgFinal drawText
    rw [labelImgAfterFill_qr]
    rw [if_pos hxy]
    have hself : labelBounds.inter labelBounds = labelBounds := by decide
    unfold labelImgAfterBg drawUniform
    rw [hself, if_pos hxy]
    rfl

/-! ## Claim C5: imaging.Fit respects the 200×200 box and the aspect ratio -/

/-- C5: for every decodable logo (positive source dimensions), the resized
logo fits the configured `logoWidth × logoHeight = 200×200` bounding box on
both axes, is nondegenerate, and preserves the source aspect ratio within
rounding: the cross products `h' * srcW` and `w' * srcH` differ by less than
one source-pixel quantum (`max srcW srcH`). -/
theorem C5_fit_bounds_and_ratio (srcW srcH : Nat) (hW : 0 < srcW) (hH : 0 < srcH) :
    0 < (fitDims srcW srcH logoWidth logoHeight).1 ∧
    0 < (fitDims srcW srcH logoWidth logoHeight).2 ∧
    (fitDims srcW srcH logoWidth logoHeight).1 ≤ 200 ∧
    (fitDims srcW srcH logoWidth logoHeight).2 ≤ 200 ∧
    (((fitDims srcW srcH logoWidth logoHeight).2 : Int) * srcW -
        ((fitDims srcW srcH logoWidth logoHeight).1 : Int) * srcH).natAbs
      < max srcW srcH := by
  have h200 : ¬(logoWidth = 0 ∨ logoHeight = 0) := by decide
  have hsrc : ¬(srcW = 0 ∨ srcH = 0) := by omega
  unfold fitDims
  rw [if_neg h200, if_neg hsrc]
  by_cases hfit : srcW ≤ logoWidth ∧ srcH ≤ logoHeight
  · rw [if_pos hfit]
    unfold logoWidth logoHeight at hfit
    refine ⟨hW, hH, hfit.1, hfit.2, ?_⟩
    have hz : (srcH : Int) * srcW - (srcW : Int) * srcH = 0 := by ring
    rw [hz]
    simp
    omega
  · rw [if_neg hfit]
    unfold logoWidth logoHeight at hfit ⊢
    by_cases hland : srcW * 200 > 200 * srcH
    · rw [if_pos hland]
      have hWH : srcH < srcW := by omega
      have hmax : max srcW srcH = srcW := by omega
      set h0 := (200 * srcH) / srcW with hh0
      clear_value h0
      have hlb : h0 * srcW ≤ 200 * srcH := by
        rw [hh0]
        exact Nat.div_mul_le_self _ _
      have hub : 200 * srcH < h0 * srcW + srcW := by
        rw [hh0]
        calc 200 * srcH < (200 * srcH / srcW + 1) * srcW :=
              (Nat.div_lt_iff_lt_mul hW).mp (Nat.lt_succ_self _)
        _ = 200 * srcH / srcW * srcW + srcW := by ring
      have hlt : h0 < 200 := by
        rw [hh0, Nat.div_lt_iff_lt_mul hW]
        omega
      clear hh0
      by_cases hz : h0 = 0
      · have h1 : 200 * srcH < srcW := by
          rw [hz] at hub
          omega
        have hr : (2 * 200 * srcH + srcW) / (2 * srcW) ≤ 1 := by
          rw [Nat.div_le_iff_le_mul_add_pred (by omega)]
          omega
        unfold resizeDims
        rw [if_neg (by omega), if_neg (by omega), if_pos hz]
        have hone : max 1 ((2 * 200 * srcH + srcW) / (2 * srcW)) = 1 := by omega
        rw [hone]
        dsimp only
        refine ⟨by omega, by omega, by omega, by omega, ?_⟩
        rw [hmax]
        have hcast : ((1 : Nat) : Int) * srcW - ((200 : Nat) : Int) * srcH =
            (srcW : Int) - 200 * srcH := by push_cast; ring
        rw [hcast]
        omega
      · unfold resizeDims
        rw [if_neg (by omega), if_neg (by omega), if_neg hz]
        dsimp only
        refine ⟨by omega, by omega, by omega, by omega, ?_⟩
        rw [hmax]
        have hc1 : (h0 : Int) * srcW ≤ 200 * srcH := by exact_mod_cast hlb
        have hc2 : (200 : Int) * srcH < h0 * srcW + srcW := by exact_mod_cast hub
        have hcast : ((200 : Nat) : Int) = (200 : Int) := by norm_num
        omega
    · rw [if_neg hland]
      have hWH : srcW ≤ srcH := by omega
      have hHbig : 200 < srcH := by
        by_cases hsH : srcH ≤ 200
        · exact absurd ⟨by omega, hsH⟩ hfit
        · omega
      have hmax : max srcW srcH = srcH := by omega
      set w0 := (200 * srcW) / srcH with hw0
      clear_value w0
      have hlb : w0 * srcH ≤ 200 * srcW := by
        rw [hw0]
        exact Nat.div_mul_le_self _ _
      have hub : 200 * srcW < w0 * srcH + srcH := by
        rw [hw0]
        calc 200 * srcW < (200 * srcW / srcH + 1) * srcH :=
              (Nat.div_lt_iff_lt_mul hH).mp (Nat.lt_succ_self _)
        _ = 200 * srcW / srcH * srcH + srcH := by ring
      have hle : w0 ≤ 200 := by
        rw [hw0, Nat.div_le_iff_le_mul_add_pred hH]
        omega
      clear hw0
      by_cases hz : w0 = 0
      · have h1 : 200 * srcW < srcH := by
          rw [hz] at hub
          omega
        have hr : (2 * 200 * srcW + srcH) / (2 * srcH) ≤ 1 := by
          rw [Nat.div_le_iff_le_mul_add_pred (by omega)]
          omega
        unfold resizeDims
        rw [if_neg (by omega), if_pos hz]
        have hone : max 1 ((2 * 200 * srcW + srcH) / (2 * srcH)) = 1 := by omega
        rw [hone]
        dsimp only
        refine ⟨by omega, by omega, by omega, by omega, ?_⟩
        rw [hmax]
        have hcast : ((200 : Nat) : Int) * srcW - ((1 : Nat) : Int) * srcH =
            (200 : Int) * srcW - srcH := by push_cast; ring
        rw [hcast]
        omega
      · unfold resizeDims
        rw [if_neg (by omega), if_neg hz, if_neg (by omega)]
        dsimp only
        refine ⟨by omega, by omega, by omega, by omega, ?_⟩
        rw [hmax]
        have hc1 : (w0 : Int) * srcH ≤ 200 * srcW := by exact_mod_cast hlb
        have hc2 : (200 : Int) * srcW < w0 * srcH + srcH := by exact_mod_cast hub
        have hcast : ((200 : Nat) : Int) = (200 : Int) := by norm_num
        omega

/-- C5 witness: a 1024×768 logo resizes to 200×150, inside the box, with the
aspect ratio preserved exactly. -/
theorem C5_fit_bounds_and_ratio_witness :
    0 < (fitDims 1024 768 logoWidth logoHeight).1 ∧
    0 < (fitDims 1024 768 logoWidth logoHeight).2 ∧
    (fitDims 1024 768 logoWidth logoHeight).1 ≤ 200 ∧
    (fitDims 1024 768 logoWidth logoHeight).2 ≤ 200 ∧
    (((fitDims 1024 768 logoWidth logoHeight).2 : Int) * 1024 -
        ((fitDims 1024 768 logoWidth logoHeight).1 : Int) * 768).natAbs
      < max 1024 768 :=
  C5_fit_bounds_and_ratio 1024 768 (by decide) (by decide)
